import Mathlib

/-!
Verification of the platform capability facade in `src-tauri/src/fcm.rs`.

Each Tauri command in that module branches at compile time on the build
target via `#[cfg(target_os = ...)]`.  We embed the three branches as an
explicit `Platform` argument, and the ambient machine state a command body
may read as a `World` record.  The only piece of the outside world any
command body consults is the outcome of `hostname::get()` on the desktop
branch of `get_device_name`; every other body is a literal constant, which
the embedding reflects by ignoring the `World` argument.
-/

/-- The compile-time build target: the three `cfg` branches that appear in
`fcm.rs` (`target_os = "android"`, `target_os = "ios"`, and the
`not(any(...))` desktop fallthrough). -/
inductive Platform where
  | android
  | ios
  | desktop
deriving DecidableEq, Repr

/-- Ambient machine state observable by a command invocation.  `hostname`
models the result of `hostname::get()`: `Except.ok h` is a successful
lookup yielding the (lossily decoded) host name `h`, `Except.error ()` is
a failed lookup. -/
structure World where
  hostname : Except Unit String
deriving Repr

/-- The `FcmTokenResult` struct of `fcm.rs`: outcome of a push-token
lookup, with an optional token and an optional error string. -/
structure FcmTokenResult where
  token : Option String
  error : Option String
deriving DecidableEq, Repr

/-- The `PermissionResult` struct of `fcm.rs`: whether notification
permission is granted and whether a prompt can be requested. -/
structure PermissionResult where
  granted : Bool
  can_request : Bool
deriving DecidableEq, Repr

/-- The `PendingNavigationResult` struct of `fcm.rs`: an optional feed id
stored by the native layer when a notification is tapped. -/
structure PendingNavigationResult where
  feed_id : Option String
deriving DecidableEq, Repr

/-- Embedding of `get_platform`: each `cfg` branch returns its fixed
string literal. -/
def get_platform (p : Platform) (_w : World) : String :=
  match p with
  | .android => "android"
  | .ios => "ios"
  | .desktop => "desktop"

/-- Embedding of `get_device_name`: fixed placeholders on the mobile
branches; on desktop, `hostname::get().map(to_string_lossy)` with
`unwrap_or_else` falling back to the literal `"Desktop"`. -/
def get_device_name (p : Platform) (w : World) : String :=
  match p with
  | .android => "Android Device"
  | .ios => "iOS Device"
  | .desktop =>
      match w.hostname with
      | .ok h => h
      | .error _ => "Desktop"

/-- Embedding of `has_notification_permission`: optimistic defaults on
the mobile branches, `granted = true` / `can_request = false` on
desktop. -/
def has_notification_permission (p : Platform) (_w : World) : PermissionResult :=
  match p with
  | .android => { granted := true, can_request := true }
  | .ios => { granted := true, can_request := true }
  | .desktop => { granted := true, can_request := false }

/-- Embedding of `get_fcm_token`: every branch returns `token = None`
together with its branch-specific error string. -/
def get_fcm_token (p : Platform) (_w : World) : FcmTokenResult :=
  match p with
  | .android =>
      { token := none, error := some "Use native bridge to retrieve FCM token" }
  | .ios =>
      { token := none, error := some "iOS push notifications not yet implemented" }
  | .desktop =>
      { token := none, error := some "Push notifications not available on desktop" }

/-- Embedding of `is_push_supported`: `true` on the combined mobile
branch, `false` on the desktop branch. -/
def is_push_supported (p : Platform) (_w : World) : Bool :=
  match p with
  | .android => true
  | .ios => true
  | .desktop => false

/-- Embedding of `get_pending_navigation`: every branch returns
`feed_id = None`. -/
def get_pending_navigation (p : Platform) (_w : World) : PendingNavigationResult :=
  match p with
  | .android => { feed_id := none }
  | .ios => { feed_id := none }
  | .desktop => { feed_id := none }

/-- Embedding of `clear_pending_navigation`: every branch returns
`Ok(())`, embedded as `Except.ok ()`. -/
def clear_pending_navigation (p : Platform) (_w : World) : Except String Unit :=
  match p with
  | .android => .ok ()
  | .ios => .ok ()
  | .desktop => .ok ()

/-- C1: for every build target `get_platform` returns exactly one of the
three literals `"android"`, `"ios"`, `"desktop"` — specifically
`"android"` on android, `"ios"` on ios, `"desktop"` on desktop — and the
same literal on every call for a fixed target. -/
theorem get_platform_fixed_literals (p : Platform) (w w' : World) :
    (get_platform p w = "android" ∨ get_platform p w = "ios" ∨
      get_platform p w = "desktop") ∧
    get_platform Platform.android w = "android" ∧
    get_platform Platform.ios w = "ios" ∧
    get_platform Platform.desktop w = "desktop" ∧
    get_platform p w = get_platform p w' := by
  cases p <;> simp [get_platform]

/-- C2: on every platform `get_fcm_token` returns `token = none` and a
present error string; no real token ever comes from this layer. -/
theorem get_fcm_token_no_real_token (p : Platform) (w : World) :
    (get_fcm_token p w).token = none ∧
    ((get_fcm_token p w).error).isSome = true := by
  cases p <;> simp [get_fcm_token]

/-- C3: when hostname lookup fails on the desktop target,
`get_device_name` returns exactly the literal `"Desktop"` — never the
empty string and never a propagated error. -/
theorem get_device_name_fallback (w : World) (e : Unit)
    (h : w.hostname = Except.error e) :
    get_device_name Platform.desktop w = "Desktop" ∧
    get_device_name Platform.desktop w ≠ "" := by
  simp [get_device_name, h]

/-- Witness for C3 at the concrete world whose hostname lookup failed. -/
theorem get_device_name_fallback_witness :
    get_device_name Platform.desktop ⟨Except.error ()⟩ = "Desktop" ∧
    get_device_name Platform.desktop ⟨Except.error ()⟩ ≠ "" :=
  get_device_name_fallback ⟨Except.error ()⟩ () rfl

/-- C4: on every platform and in every state `clear_pending_navigation`
returns the success variant `Ok(())`, never `Err(message)`. -/
theorem clear_pending_navigation_always_ok (p : Platform) (w : World) :
    clear_pending_navigation p w = Except.ok () := by
  cases p <;> rfl

/-- C5: on the desktop target `has_notification_permission` always
returns `granted = true` and `can_request = false`. -/
theorem has_notification_permission_desktop (w : World) :
    (has_notification_permission Platform.desktop w).granted = true ∧
    (has_notification_permission Platform.desktop w).can_request = false := by
  simp [has_notification_permission]

/-- C6: `is_push_supported` is a compile-time constant — `true` on the
mobile targets, `false` on desktop, independent of the world. -/
theorem is_push_supported_const (p : Platform) (w w' : World) :
    is_push_supported Platform.android w = true ∧
    is_push_supported Platform.ios w = true ∧
    is_push_supported Platform.desktop w = false ∧
    is_push_supported p w = is_push_supported p w' := by
  cases p <;> simp [is_push_supported]

/-- C7: on every platform `get_pending_navigation` returns
`feed_id = none` unconditionally. -/
theorem get_pending_navigation_feed_id_none (p : Platform) (w : World) :
    (get_pending_navigation p w).feed_id = none := by
  cases p <;> rfl

/-- C8: on the mobile targets `has_notification_permission` returns the
optimistic default `granted = true` and `can_request = true`. -/
theorem has_notification_permission_mobile (w : World) :
    (has_notification_permission Platform.android w).granted = true ∧
    (has_notification_permission Platform.android w).can_request = true ∧
    (has_notification_permission Platform.ios w).granted = true ∧
    (has_notification_permission Platform.ios w).can_request = true := by
  simp [has_notification_permission]

/-- C9: every facade operation is total — on every platform and in every
state each returns a value, `clear_pending_navigation` never returns the
failure variant, and the only error conditions are the declared
value-embedded error strings. -/
theorem fcm_commands_total (p : Platform) (w : World) :
    (∃ s, get_platform p w = s) ∧
    (∃ s, get_device_name p w = s) ∧
    (∃ r, has_notification_permission p w = r) ∧
    (∃ r, get_fcm_token p w = r) ∧
    (∃ b, is_push_supported p w = b) ∧
    (∃ r, get_pending_navigation p w = r) ∧
    clear_pending_navigation p w = Except.ok () ∧
    ((get_fcm_token p w).error = some "Use native bridge to retrieve FCM token" ∨
      (get_fcm_token p w).error = some "iOS push notifications not yet implemented" ∨
      (get_fcm_token p w).error = some "Push notifications not available on desktop") := by
  refine ⟨⟨_, rfl⟩, ⟨_, rfl⟩, ⟨_, rfl⟩, ⟨_, rfl⟩, ⟨_, rfl⟩, ⟨_, rfl⟩, ?_, ?_⟩ <;>
    cases p <;> simp [clear_pending_navigation, get_fcm_token]

/-- C10: for a fixed build target every facade operation except
`get_device_name` is a constant function of the state, and the
`get_fcm_token` error string is exactly the declared literal for each
target. -/
theorem facade_constant_per_target (p : Platform) (w w' : World) :
    get_platform p w = get_platform p w' ∧
    has_notification_permission p w = has_notification_permission p w' ∧
    get_fcm_token p w = get_fcm_token p w' ∧
    is_push_supported p w = is_push_supported p w' ∧
    get_pending_navigation p w = get_pending_navigation p w' ∧
    clear_pending_navigation p w = clear_pending_navigation p w' ∧
    (get_fcm_token Platform.android w).error =
      some "Use native bridge to retrieve FCM token" ∧
    (get_fcm_token Platform.ios w).error =
      some "iOS push notifications not yet implemented" ∧
    (get_fcm_token Platform.desktop w).error =
      some "Push notifications not available on desktop" := by
  cases p <;>
    simp [get_platform, has_notification_permission, get_fcm_token,
      is_push_supported, get_pending_navigation, clear_pending_navigation]
